import Mathlib

/-!
Verification of the Green-AI footprint calculation engine
(`src/backend/services/calculator.py`).

The engine is embedded shallowly: database rows become Lean structures,
the SQLAlchemy queries become `List.find?` over an explicit catalog, and
Python exceptions become `Except` values carrying the offending
identifier.  Python floats are modelled as real numbers (exact
arithmetic); the `DECIMAL`/`Integer` columns are all consumed through
`float(...)` conversions by the calculator, so every numeric field is
embedded as `ℝ`.  Python `round(x, 1)` is modelled as
`round (x * 10) / 10` (the two disagree only at exact ties, which no
statement below touches).  Human-readable assumption strings and
narrative sentences that interpolate formatted floats are outside the
numeric embedding and are omitted from the result records; the
trade-off emission *conditions* of `compare_models`, which the claims
are about, are embedded faithfully.
-/

namespace GreenAI

/-- Python truthiness of `x or d` for an optional float: the default is
used when the value is `None` *or* equal to `0.0` (both are falsy). -/
noncomputable def orElseR (x : Option ℝ) (d : ℝ) : ℝ :=
  match x with
  | none => d
  | some v => if v = 0 then d else v

/-- Python truthiness of `x or d` for an optional string: the default is
used when the value is `None` or the empty string. -/
def orElseStr (x : Option String) (d : String) : String :=
  match x with
  | none => d
  | some s => if s = "" then d else s

/-- Row of the `ai_models` table, restricted to the columns the
calculation engine reads. -/
structure AIModel where
  id : String
  slug : String
  display_name : String
  family : String
  energy_per_million_tokens_kwh : ℝ
  default_gpu : String
  gpu_count_inference : ℝ
  tokens_per_second_per_gpu : ℝ
  quality_score : ℝ
  is_active : Bool

/-- Row of the `gpu_profiles` table, restricted to the columns the
calculation engine reads. -/
structure GPUProfile where
  id : String
  name : String
  embodied_carbon_kg_co2e : ℝ
  expected_lifespan_hours : ℝ
  water_cooling_liters_per_hour : ℝ

/-- Row of the `grid_carbon_intensities` table, restricted to the
columns the calculation engine reads. -/
structure GridCarbonIntensity where
  region_id : String
  location : String
  source : String
  gco2e_per_kwh : ℝ
  renewable_percentage : ℝ

/-- The reference catalog the engine queries (the database session). -/
structure Catalog where
  models : List AIModel
  gpus : List GPUProfile
  grids : List GridCarbonIntensity

/-- The `ValueError`s raised by the three lookup helpers, carrying the
requested identifier, plus the `IndexError` hit by `compare_models`
when indexing into an empty entry list. -/
inductive CalcError where
  | modelNotFound (id : String)
  | gpuNotFound (id : String)
  | regionNotFound (id : String)
  | emptyComparison
deriving DecidableEq

/-- Constant `DEFAULT_PUE = 1.2`. -/
noncomputable def DEFAULT_PUE : ℝ := 1.2

/-- Constant `DEFAULT_WUE_LITERS_PER_KWH = 1.1`. -/
noncomputable def DEFAULT_WUE_LITERS_PER_KWH : ℝ := 1.1

/-- Equivalency factor `kmDrivingPerKgCO2e = 5.95`. -/
noncomputable def kmDrivingPerKgCO2e : ℝ := 5.95

/-- Equivalency factor `smartphoneChargesPerKwh = 86`. -/
noncomputable def smartphoneChargesPerKwh : ℝ := 86

/-- `CalculatorService.get_model_profile`: first active row matching the
requested identifier by opaque id or slug; `ValueError` otherwise. -/
def get_model_profile (db : Catalog) (model_id : String) :
    Except CalcError AIModel :=
  match db.models.find? (fun m =>
      (m.id == model_id || m.slug == model_id) && m.is_active) with
  | some m => .ok m
  | none => .error (.modelNotFound model_id)

/-- `CalculatorService.get_gpu_profile`. -/
def get_gpu_profile (db : Catalog) (gpu_id : String) :
    Except CalcError GPUProfile :=
  match db.gpus.find? (fun g => g.id == gpu_id) with
  | some g => .ok g
  | none => .error (.gpuNotFound gpu_id)

/-- `CalculatorService.get_grid_intensity`. -/
def get_grid_intensity (db : Catalog) (region_id : String) :
    Except CalcError GridCarbonIntensity :=
  match db.grids.find? (fun g => g.region_id == region_id) with
  | some g => .ok g
  | none => .error (.regionNotFound region_id)

/-- The `FootprintInput` dataclass. -/
structure FootprintInput where
  model_id : String
  region_id : String
  total_tokens : ℤ
  request_count : ℤ
  avg_tokens_per_request : Option ℤ := none
  gpu_override : Option String := none
  pue : Option ℝ := none
  wue : Option ℝ := none

/-- The `FootprintResult` dataclass (assumption strings omitted, see the
file header). -/
structure FootprintResult where
  energy_kwh : ℝ
  co2e_grams : ℝ
  water_liters : ℝ
  hardware_amortized_grams : ℝ
  duration_hours : ℝ
  energy_per_request : ℝ
  co2e_per_request : ℝ
  water_per_request : ℝ
  equivalent_km_driving : ℝ
  equivalent_smartphone_charges : ℝ
  model : AIModel
  gpu : GPUProfile
  grid : GridCarbonIntensity

/-- `CalculatorService.calculate_energy`:
`E = (tokens / 1_000_000) * energyPerMillionTokens * PUE`. -/
noncomputable def calculate_energy (total_tokens : ℤ) (model : AIModel)
    (pue : ℝ) : ℝ :=
  ((total_tokens : ℝ) / 1000000) * model.energy_per_million_tokens_kwh * pue

/-- `CalculatorService.calculate_co2e`: re-resolves the grid row and
multiplies energy by its carbon intensity. -/
noncomputable def calculate_co2e (db : Catalog) (energy_kwh : ℝ)
    (region_id : String) : Except CalcError ℝ :=
  match get_grid_intensity db region_id with
  | .error e => .error e
  | .ok grid => .ok (energy_kwh * grid.gco2e_per_kwh)

/-- `CalculatorService.calculate_water`:
`water = E * WUE + gpu cooling * duration`. -/
noncomputable def calculate_water (energy_kwh : ℝ) (gpu : GPUProfile)
    (duration_hours : ℝ) (wue : ℝ) : ℝ :=
  energy_kwh * wue + gpu.water_cooling_liters_per_hour * duration_hours

/-- `CalculatorService.calculate_hardware_amortization`:
`(embodied kg * 1000 / lifespan hours) * gpu_count * duration`. -/
noncomputable def calculate_hardware_amortization (gpu : GPUProfile)
    (gpu_count : ℝ) (usage_duration_hours : ℝ) : ℝ :=
  (gpu.embodied_carbon_kg_co2e * 1000 / gpu.expected_lifespan_hours) *
    gpu_count * usage_duration_hours

/-- `CalculatorService.calculate_full_footprint`, with Python exception
propagation made explicit via `Except`. -/
noncomputable def calculate_full_footprint (db : Catalog)
    (inp : FootprintInput) : Except CalcError FootprintResult :=
  match get_model_profile db inp.model_id with
  | .error e => .error e
  | .ok model =>
    match get_gpu_profile db (orElseStr inp.gpu_override model.default_gpu) with
    | .error e => .error e
    | .ok gpu =>
      match get_grid_intensity db inp.region_id with
      | .error e => .error e
      | .ok grid =>
        let pue := orElseR inp.pue DEFAULT_PUE
        let energy_kwh := calculate_energy inp.total_tokens model pue
        let total_seconds := (inp.total_tokens : ℝ) /
          (model.tokens_per_second_per_gpu * model.gpu_count_inference)
        let duration_hours := total_seconds / 3600
        match calculate_co2e db energy_kwh inp.region_id with
        | .error e => .error e
        | .ok co2e_grams =>
          let wue := orElseR inp.wue DEFAULT_WUE_LITERS_PER_KWH
          let water_liters := calculate_water energy_kwh gpu duration_hours wue
          let hardware_amortized_grams := calculate_hardware_amortization
            gpu model.gpu_count_inference duration_hours
          let total_co2e_kg := co2e_grams / 1000
          let request_count : ℤ := max inp.request_count 1
          .ok {
            energy_kwh := energy_kwh
            co2e_grams := co2e_grams
            water_liters := water_liters
            hardware_amortized_grams := hardware_amortized_grams
            duration_hours := duration_hours
            energy_per_request := energy_kwh / (request_count : ℝ)
            co2e_per_request := co2e_grams / (request_count : ℝ)
            water_per_request := water_liters / (request_count : ℝ)
            equivalent_km_driving := total_co2e_kg * kmDrivingPerKgCO2e
            equivalent_smartphone_charges := energy_kwh * smartphoneChargesPerKwh
            model := model
            gpu := gpu
            grid := grid }

/-- `CalculatorService.log_normalize`: logarithmic normalization against
a best/worst benchmark pair, with the final clamp to `[0, 100]`. -/
noncomputable def log_normalize (value best worst : ℝ) : ℝ :=
  if value ≤ best then 100
  else if worst ≤ value then 0
  else max 0 (min 100
    (100 * (1 - (Real.log value - Real.log best) /
      (Real.log worst - Real.log best))))

/-- `CalculatorService.linear_normalize`. -/
noncomputable def linear_normalize (value worst best : ℝ) : ℝ :=
  if best ≤ value then 100
  else if value ≤ worst then 0
  else 100 * (value - worst) / (best - worst)

/-- `CalculatorService.get_grade`: EcoScore to letter grade. -/
noncomputable def get_grade (score : ℝ) : String :=
  if 90 ≤ score then "A+"
  else if 80 ≤ score then "A"
  else if 70 ≤ score then "B+"
  else if 60 ≤ score then "B"
  else if 50 ≤ score then "C+"
  else if 40 ≤ score then "C"
  else if 30 ≤ score then "D"
  else "F"

/-- The five named EcoScore weights. -/
structure Weights where
  energyEfficiency : ℝ
  carbonIntensity : ℝ
  waterUsage : ℝ
  hardwareLifecycle : ℝ
  renewableAlignment : ℝ

/-- Constant table `DEFAULT_ECOSCORE_WEIGHTS`. -/
noncomputable def DEFAULT_ECOSCORE_WEIGHTS : Weights where
  energyEfficiency := 0.30
  carbonIntensity := 0.30
  waterUsage := 0.10
  hardwareLifecycle := 0.10
  renewableAlignment := 0.20

/-- One best/worst benchmark pair. -/
structure Benchmark where
  best : ℝ
  worst : ℝ

/-- Constant table `ECOSCORE_BENCHMARKS`. -/
structure Benchmarks where
  energyPerMillionTokens : Benchmark
  co2ePerMillionTokens : Benchmark
  waterPerMillionTokens : Benchmark
  hardwareAmortizedPerMillionTokens : Benchmark
  renewablePercentage : Benchmark

/-- The fixed benchmark values of `ECOSCORE_BENCHMARKS`. -/
noncomputable def ECOSCORE_BENCHMARKS : Benchmarks where
  energyPerMillionTokens := ⟨0.03, 5.0⟩
  co2ePerMillionTokens := ⟨2.3, 2100⟩
  waterPerMillionTokens := ⟨0.03, 5.5⟩
  hardwareAmortizedPerMillionTokens := ⟨0.5, 120⟩
  renewablePercentage := ⟨100, 0⟩

/-- The weighted overall EcoScore of lines 339-345 of the source:
`Σ weight[k] * score[k]` over the five sub-scores. -/
noncomputable def eco_overall (w : Weights)
    (energy_score co2_score water_score hw_score renewable_score : ℝ) : ℝ :=
  w.energyEfficiency * energy_score +
  w.carbonIntensity * co2_score +
  w.waterUsage * water_score +
  w.hardwareLifecycle * hw_score +
  w.renewableAlignment * renewable_score

/-- Python `round(x, 1)` on exact reals (ties excepted, see header). -/
noncomputable def round1 (x : ℝ) : ℝ := (round (x * 10) : ℤ) / 10

/-- Python `round(x, 2)` on exact reals (ties excepted, see header). -/
noncomputable def round2 (x : ℝ) : ℝ := (round (x * 100) : ℤ) / 100

/-- Python `round(x, 3)` on exact reals (ties excepted, see header). -/
noncomputable def round3 (x : ℝ) : ℝ := (round (x * 1000) : ℤ) / 1000

/-- The `EcoScoreBreakdown` dataclass (the formatted explanation string
is omitted, see the file header). -/
structure EcoScoreBreakdown where
  score : ℝ
  raw : ℝ
  unit : String

/-- The five named entries of the `breakdown` dictionary. -/
structure EcoBreakdowns where
  energyEfficiency : EcoScoreBreakdown
  carbonIntensity : EcoScoreBreakdown
  waterUsage : EcoScoreBreakdown
  hardwareLifecycle : EcoScoreBreakdown
  renewableAlignment : EcoScoreBreakdown

/-- The `EcoScoreResult` dataclass (assumption strings omitted). -/
structure EcoScoreResult where
  overall : ℝ
  grade : String
  breakdown : EcoBreakdowns
  confidence : String

/-- `CalculatorService.calculate_eco_score`.  `weights = none` models the
Python default `weights=None`, replaced by `DEFAULT_ECOSCORE_WEIGHTS`. -/
noncomputable def calculate_eco_score (db : Catalog)
    (model_id region_id : String) (weights : Option Weights)
    (gpu_override : Option String) : Except CalcError EcoScoreResult :=
  let w := weights.getD DEFAULT_ECOSCORE_WEIGHTS
  match get_model_profile db model_id with
  | .error e => .error e
  | .ok model =>
    match get_gpu_profile db (orElseStr gpu_override model.default_gpu) with
    | .error e => .error e
    | .ok gpu =>
      match get_grid_intensity db region_id with
      | .error e => .error e
      | .ok grid =>
        let benchmarks := ECOSCORE_BENCHMARKS
        let energy_raw := model.energy_per_million_tokens_kwh * DEFAULT_PUE
        let energy_score := log_normalize energy_raw
          benchmarks.energyPerMillionTokens.best
          benchmarks.energyPerMillionTokens.worst
        let co2_raw := energy_raw * grid.gco2e_per_kwh
        let co2_score := log_normalize co2_raw
          benchmarks.co2ePerMillionTokens.best
          benchmarks.co2ePerMillionTokens.worst
        let inference_seconds := 1000000 /
          (model.tokens_per_second_per_gpu * model.gpu_count_inference)
        let inference_hours := inference_seconds / 3600
        let water_raw := energy_raw * DEFAULT_WUE_LITERS_PER_KWH +
          gpu.water_cooling_liters_per_hour * inference_hours
        let water_score := log_normalize water_raw
          benchmarks.waterPerMillionTokens.best
          benchmarks.waterPerMillionTokens.worst
        let hw_raw := (gpu.embodied_carbon_kg_co2e * 1000 /
            gpu.expected_lifespan_hours) *
          model.gpu_count_inference * inference_hours
        let hw_score := log_normalize hw_raw
          benchmarks.hardwareAmortizedPerMillionTokens.best
          benchmarks.hardwareAmortizedPerMillionTokens.worst
        let renewable_score := linear_normalize grid.renewable_percentage
          benchmarks.renewablePercentage.worst
          benchmarks.renewablePercentage.best
        let overall := eco_overall w energy_score co2_score water_score
          hw_score renewable_score
        let grade := get_grade overall
        let confidence := if model.family = "custom" then "low" else "medium"
        .ok {
          overall := round1 overall
          grade := grade
          breakdown := {
            energyEfficiency :=
              ⟨round1 energy_score, round3 energy_raw, "kWh per M tokens"⟩
            carbonIntensity :=
              ⟨round1 co2_score, round2 co2_raw, "gCO2e per M tokens"⟩
            waterUsage :=
              ⟨round1 water_score, round3 water_raw, "liters per M tokens"⟩
            hardwareLifecycle :=
              ⟨round1 hw_score, round2 hw_raw, "gCO2e amortized per M tokens"⟩
            renewableAlignment :=
              ⟨round1 renewable_score, grid.renewable_percentage,
                "% renewable grid"⟩ }
          confidence := confidence }

/-- One element of the `entries` list built by `compare_models` (the
`footprint` sub-dictionary is flattened into fields). -/
structure CompareEntry where
  modelId : String
  displayName : String
  ecoScore : EcoScoreResult
  energyKwhPer1kRequests : ℝ
  co2eGramsPer1kRequests : ℝ
  waterLitersPer1kRequests : ℝ
  hardwareAmortizedGramsPer1kRequests : ℝ
  totalEquivalentKmDriving : ℝ
  totalEquivalentSmartphoneCharges : ℝ
  qualityScore : ℝ
  costEfficiency : ℝ

/-- The `recommendation` dictionary of `compare_models` (the narrative
paragraph, which interpolates formatted floats, is omitted). -/
structure Recommendation where
  bestOverall : String
  bestEfficiency : String
  bestQualityPerCarbon : String
  tradeoffs : List String

/-- The return dictionary of `compare_models` (scenario assumption
strings omitted). -/
structure CompareResult where
  models : List CompareEntry
  recommendation : Recommendation

/-- Insert into a sorted list, keeping `y` before `x` exactly when
`lt y x`; with a strict key comparison this reproduces the stability of
Python `sorted`. -/
def insertSorted {α : Type} (lt : α → α → Bool) (x : α) :
    List α → List α
  | [] => [x]
  | y :: ys => if lt y x then y :: insertSorted lt x ys else x :: y :: ys

/-- Stable sort modelling Python `sorted` (ascending under the strict
comparison `lt`; descending keys model `reverse=True`). -/
def sortByKey {α : Type} (lt : α → α → Bool) : List α → List α
  | [] => []
  | x :: xs => insertSorted lt x (sortByKey lt xs)

/-- The entry-building loop of `CalculatorService.compare_models`: for
each model id, resolve the model, compute its EcoScore and its footprint
at the comparison scenario, and derive `cost_efficiency` (quality points
per kg CO2e, `0` when `co2e_grams` is not positive). -/
noncomputable def compare_entries (db : Catalog) (region_id : String)
    (total_tokens requests_per_1k : ℤ) (w : Weights) :
    List String → Except CalcError (List CompareEntry)
  | [] => .ok []
  | model_id :: rest =>
    match get_model_profile db model_id with
    | .error e => .error e
    | .ok model =>
      match calculate_eco_score db model_id region_id (some w) none with
      | .error e => .error e
      | .ok eco_score =>
        match calculate_full_footprint db
            { model_id := model_id, region_id := region_id,
              total_tokens := total_tokens,
              request_count := requests_per_1k } with
        | .error e => .error e
        | .ok footprint =>
          let cost_efficiency :=
            if 0 < footprint.co2e_grams then
              model.quality_score / (footprint.co2e_grams / 1000)
            else 0
          let entry : CompareEntry := {
            modelId := model_id
            displayName := model.display_name
            ecoScore := eco_score
            energyKwhPer1kRequests := footprint.energy_kwh
            co2eGramsPer1kRequests := footprint.co2e_grams
            waterLitersPer1kRequests := footprint.water_liters
            hardwareAmortizedGramsPer1kRequests :=
              footprint.hardware_amortized_grams
            totalEquivalentKmDriving := footprint.equivalent_km_driving
            totalEquivalentSmartphoneCharges :=
              footprint.equivalent_smartphone_charges
            qualityScore := model.quality_score
            costEfficiency := round1 cost_efficiency }
          match compare_entries db region_id total_tokens requests_per_1k
              w rest with
          | .error e => .error e
          | .ok entries => .ok (entry :: entries)

/-- `CalculatorService.compare_models`: builds the entries, ranks them
three ways (EcoScore descending, CO2e ascending, cost efficiency
descending), and emits trade-off statements only under the source's
conditions.  Indexing `sorted[0]` / `sorted[-1]` on an empty entry list
raises in Python and is embedded as `.error .emptyComparison`. -/
noncomputable def compare_models (db : Catalog) (model_ids : List String)
    (region_id : String) (requests_per_1k avg_tokens_per_request : ℤ)
    (weights : Option Weights) : Except CalcError CompareResult :=
  let w := weights.getD DEFAULT_ECOSCORE_WEIGHTS
  let total_tokens := requests_per_1k * avg_tokens_per_request
  match compare_entries db region_id total_tokens requests_per_1k w
      model_ids with
  | .error e => .error e
  | .ok entries =>
    let sorted_by_score := sortByKey
      (fun a b => decide (b.ecoScore.overall < a.ecoScore.overall)) entries
    let sorted_by_efficiency := sortByKey
      (fun a b =>
        decide (a.co2eGramsPer1kRequests < b.co2eGramsPer1kRequests)) entries
    let sorted_by_cost_efficiency := sortByKey
      (fun a b => decide (b.costEfficiency < a.costEfficiency)) entries
    match sorted_by_score, sorted_by_efficiency,
        sorted_by_cost_efficiency with
    | best_overall :: rest_score, best_efficiency :: _,
        best_quality_per_carbon :: _ =>
      let worst_entry :=
        (best_overall :: rest_score).getLast (List.cons_ne_nil _ _)
      let t1 :=
        if best_overall.modelId ≠ best_efficiency.modelId then
          [best_overall.displayName ++ " has the best overall EcoScore but "
            ++ best_efficiency.displayName
            ++ " has lower absolute emissions - consider workload criticality."]
        else []
      let t2 :=
        if best_overall.modelId ≠ best_quality_per_carbon.modelId then
          [best_quality_per_carbon.displayName
            ++ " delivers the most quality per unit of carbon - optimal for tasks where model capability matters."]
        else []
      let improvement_pct : ℤ :=
        if 0 < worst_entry.co2eGramsPer1kRequests then
          round ((1 - best_efficiency.co2eGramsPer1kRequests /
            worst_entry.co2eGramsPer1kRequests) * 100)
        else 0
      let t3 :=
        if 10 < improvement_pct then
          ["Switching from " ++ worst_entry.displayName ++ " to "
            ++ best_efficiency.displayName
            ++ " could reduce emissions by about "
            ++ toString improvement_pct ++ " percent."]
        else []
      .ok {
        models := entries
        recommendation := {
          bestOverall := best_overall.modelId
          bestEfficiency := best_efficiency.modelId
          bestQualityPerCarbon := best_quality_per_carbon.modelId
          tradeoffs := t1 ++ t2 ++ t3 } }
    | _, _, _ => .error .emptyComparison

/-- Evaluation lemma: when the three catalog lookups succeed,
`calculate_full_footprint` returns the record assembled from the
source's formulas. -/
theorem calculate_full_footprint_ok (db : Catalog) (inp : FootprintInput)
    (m : AIModel) (gp : GPUProfile) (gr : GridCarbonIntensity)
    (hm : get_model_profile db inp.model_id = .ok m)
    (hgpu : get_gpu_profile db (orElseStr inp.gpu_override m.default_gpu)
      = .ok gp)
    (hgr : get_grid_intensity db inp.region_id = .ok gr) :
    calculate_full_footprint db inp = .ok {
      energy_kwh := calculate_energy inp.total_tokens m
        (orElseR inp.pue DEFAULT_PUE)
      co2e_grams := calculate_energy inp.total_tokens m
        (orElseR inp.pue DEFAULT_PUE) * gr.gco2e_per_kwh
      water_liters := calculate_water
        (calculate_energy inp.total_tokens m (orElseR inp.pue DEFAULT_PUE))
        gp
        ((inp.total_tokens : ℝ) /
          (m.tokens_per_second_per_gpu * m.gpu_count_inference) / 3600)
        (orElseR inp.wue DEFAULT_WUE_LITERS_PER_KWH)
      hardware_amortized_grams := calculate_hardware_amortization gp
        m.gpu_count_inference
        ((inp.total_tokens : ℝ) /
          (m.tokens_per_second_per_gpu * m.gpu_count_inference) / 3600)
      duration_hours := (inp.total_tokens : ℝ) /
        (m.tokens_per_second_per_gpu * m.gpu_count_inference) / 3600
      energy_per_request := calculate_energy inp.total_tokens m
        (orElseR inp.pue DEFAULT_PUE) / ((max inp.request_count 1 : ℤ) : ℝ)
      co2e_per_request := calculate_energy inp.total_tokens m
          (orElseR inp.pue DEFAULT_PUE) * gr.gco2e_per_kwh /
        ((max inp.request_count 1 : ℤ) : ℝ)
      water_per_request := calculate_water
          (calculate_energy inp.total_tokens m (orElseR inp.pue DEFAULT_PUE))
          gp
          ((inp.total_tokens : ℝ) /
            (m.tokens_per_second_per_gpu * m.gpu_count_inference) / 3600)
          (orElseR inp.wue DEFAULT_WUE_LITERS_PER_KWH) /
        ((max inp.request_count 1 : ℤ) : ℝ)
      equivalent_km_driving := calculate_energy inp.total_tokens m
          (orElseR inp.pue DEFAULT_PUE) * gr.gco2e_per_kwh / 1000 *
        kmDrivingPerKgCO2e
      equivalent_smartphone_charges := calculate_energy inp.total_tokens m
        (orElseR inp.pue DEFAULT_PUE) * smartphoneChargesPerKwh
      model := m
      gpu := gp
      grid := gr } := by
  simp only [calculate_full_footprint, hm, hgpu, hgr, calculate_co2e]

/-- Concrete model row realizing the spec's scenario:
`energy_per_million_tokens_kwh = 0.45`, `tokens_per_second_per_gpu = 120`,
`gpu_count_inference = 2`. -/
noncomputable def scenarioModel : AIModel where
  id := "m-0001"
  slug := "scenario-model"
  display_name := "Scenario Model"
  family := "scenario"
  energy_per_million_tokens_kwh := 0.45
  default_gpu := "nvidia-h100"
  gpu_count_inference := 2
  tokens_per_second_per_gpu := 120
  quality_score := 80
  is_active := true

/-- Concrete GPU row used by the scenario catalog. -/
noncomputable def scenarioGpu : GPUProfile where
  id := "nvidia-h100"
  name := "NVIDIA H100"
  embodied_carbon_kg_co2e := 150
  expected_lifespan_hours := 50000
  water_cooling_liters_per_hour := 0.4

/-- Concrete grid row realizing the spec's scenario:
`gco2e_per_kwh = 78`. -/
noncomputable def scenarioGrid : GridCarbonIntensity where
  region_id := "eu-north-1"
  location := "Stockholm"
  source := "ElectricityMaps"
  gco2e_per_kwh := 78
  renewable_percentage := 85

/-- Concrete catalog holding the scenario rows. -/
noncomputable def scenarioCatalog : Catalog where
  models := [scenarioModel]
  gpus := [scenarioGpu]
  grids := [scenarioGrid]

/-- C1: for every model profile and grid profile, with no PUE override,
the computed energy is `(total_tokens / 1_000_000) *
energy_per_million_tokens_kwh * 1.2`, the CO2e is that energy times
`gco2e_per_kwh`, and the duration is
`total_tokens / (tokens_per_second_per_gpu * gpu_count_inference) / 3600`
hours. -/
theorem C1_footprint_formulas (db : Catalog) (inp : FootprintInput)
    (m : AIModel) (gp : GPUProfile) (gr : GridCarbonIntensity)
    (hm : get_model_profile db inp.model_id = .ok m)
    (hgpu : get_gpu_profile db (orElseStr inp.gpu_override m.default_gpu)
      = .ok gp)
    (hgr : get_grid_intensity db inp.region_id = .ok gr)
    (hpue : inp.pue = none) :
    ∃ r, calculate_full_footprint db inp = .ok r ∧
      r.energy_kwh = ((inp.total_tokens : ℝ) / 1000000) *
        m.energy_per_million_tokens_kwh * 1.2 ∧
      r.co2e_grams = r.energy_kwh * gr.gco2e_per_kwh ∧
      r.duration_hours = (inp.total_tokens : ℝ) /
        (m.tokens_per_second_per_gpu * m.gpu_count_inference) / 3600 := by
  refine ⟨_, calculate_full_footprint_ok db inp m gp gr hm hgpu hgr,
    ?_, ?_, ?_⟩ <;>
    simp [calculate_energy, orElseR, hpue, DEFAULT_PUE]

/-- C1 witness: the spec's concrete scenario at one million tokens
yields `energy_kwh = 0.54`, `co2e_grams = 42.12`, and
`duration_hours = 1000000 / (120 * 2) / 3600`. -/
theorem C1_footprint_formulas_witness :
    ∃ r, calculate_full_footprint scenarioCatalog
      { model_id := "m-0001", region_id := "eu-north-1",
        total_tokens := 1000000, request_count := 1000 } = .ok r ∧
      r.energy_kwh = 0.54 ∧ r.co2e_grams = 42.12 ∧
      r.duration_hours = 1000000 / (120 * 2) / 3600 := by
  obtain ⟨r, hr, he, hc, hd⟩ := C1_footprint_formulas scenarioCatalog
    { model_id := "m-0001", region_id := "eu-north-1",
      total_tokens := 1000000, request_count := 1000 }
    scenarioModel scenarioGpu scenarioGrid rfl rfl rfl rfl
  refine ⟨r, hr, ?_, ?_, ?_⟩
  · rw [he]; norm_num [scenarioModel]
  · rw [hc, he]; norm_num [scenarioModel, scenarioGrid]
  · rw [hd]; norm_num [scenarioModel]

/-- C2 counterexample: the claim fails at `wue = 0.0`.  In the scenario
catalog with a supplied WUE override of `0.0` (inside the documented
range `0.0`–`5.0`), the claimed water value would be
`energy_kwh * 0 + water_cooling * duration_hours`, but the code
computes with the default `1.1` instead (Python `or` treats `0.0` as
absent), so the returned `water_liters` differs. -/
theorem C2_counterexample :
    ∃ r, calculate_full_footprint scenarioCatalog
      { model_id := "m-0001", region_id := "eu-north-1",
        total_tokens := 1000000, request_count := 1000,
        wue := some 0 } = .ok r ∧
      r.water_liters ≠ r.energy_kwh * 0 +
        scenarioGpu.water_cooling_liters_per_hour * r.duration_hours := by
  refine ⟨_, calculate_full_footprint_ok scenarioCatalog
    { model_id := "m-0001", region_id := "eu-north-1",
      total_tokens := 1000000, request_count := 1000, wue := some 0 }
    scenarioModel scenarioGpu scenarioGrid rfl rfl rfl, ?_⟩
  simp only [calculate_water, calculate_energy, orElseR,
    DEFAULT_PUE, DEFAULT_WUE_LITERS_PER_KWH]
  norm_num [scenarioModel, scenarioGpu]

/-- C2 (amended): a supplied WUE override is used whenever it is
nonzero; an override equal to `0.0` is treated as absent by the Python
`or` expression, so the fixed constant `1.1` applies in that case.  For
every override `w` in `(0.0, 5.0]` the water formula therefore uses `w`
itself. -/
theorem C2_water_override (db : Catalog) (inp : FootprintInput)
    (m : AIModel) (gp : GPUProfile) (gr : GridCarbonIntensity) (w : ℝ)
    (hm : get_model_profile db inp.model_id = .ok m)
    (hgpu : get_gpu_profile db (orElseStr inp.gpu_override m.default_gpu)
      = .ok gp)
    (hgr : get_grid_intensity db inp.region_id = .ok gr)
    (hwue : inp.wue = some w) :
    ∃ r, calculate_full_footprint db inp = .ok r ∧
      r.water_liters = r.energy_kwh *
          (if w = 0 then DEFAULT_WUE_LITERS_PER_KWH else w) +
        gp.water_cooling_liters_per_hour * r.duration_hours := by
  refine ⟨_, calculate_full_footprint_ok db inp m gp gr hm hgpu hgr, ?_⟩
  simp [calculate_water, orElseR, hwue]

/-- C2 witness: a nonzero in-range override (`wue = 2`) is used as-is in
the water formula. -/
theorem C2_water_override_witness :
    (0 : ℝ) < 2 ∧ (2 : ℝ) ≤ 5 ∧
    ∃ r, calculate_full_footprint scenarioCatalog
      { model_id := "m-0001", region_id := "eu-north-1",
        total_tokens := 1000000, request_count := 1000,
        wue := some 2 } = .ok r ∧
      r.water_liters = r.energy_kwh * 2 +
        scenarioGpu.water_cooling_liters_per_hour * r.duration_hours := by
  refine ⟨by norm_num, by norm_num, ?_⟩
  obtain ⟨r, hr, hw⟩ := C2_water_override scenarioCatalog
    { model_id := "m-0001", region_id := "eu-north-1",
      total_tokens := 1000000, request_count := 1000, wue := some 2 }
    scenarioModel scenarioGpu scenarioGrid 2 rfl rfl rfl rfl
  refine ⟨r, hr, ?_⟩
  rw [hw]
  norm_num

/-- C3: when no active catalog row matches a requested model identifier
by opaque id or slug, model resolution fails carrying that exact
identifier, and both `calculate_full_footprint` and
`calculate_eco_score` propagate that failure without returning any
result. -/
theorem C3_model_not_found (db : Catalog) (mid : String)
    (h : ∀ m ∈ db.models, ¬((m.id = mid ∨ m.slug = mid) ∧ m.is_active)) :
    get_model_profile db mid = .error (.modelNotFound mid) ∧
    (∀ inp : FootprintInput, inp.model_id = mid →
      calculate_full_footprint db inp = .error (.modelNotFound mid)) ∧
    (∀ (rid : String) (w : Option Weights) (g : Option String),
      calculate_eco_score db mid rid w g = .error (.modelNotFound mid)) := by
  have hfind : db.models.find? (fun m =>
      (m.id == mid || m.slug == mid) && m.is_active) = none := by
    rw [List.find?_eq_none]
    intro m hmem
    have := h m hmem
    simp only [Bool.and_eq_true, Bool.or_eq_true, beq_iff_eq]
    intro hcontra
    exact this ⟨hcontra.1, hcontra.2⟩
  have hprof : get_model_profile db mid = .error (.modelNotFound mid) := by
    simp [get_model_profile, hfind]
  refine ⟨hprof, ?_, ?_⟩
  · intro inp hinp
    simp [calculate_full_footprint, hinp, hprof]
  · intro rid w g
    simp [calculate_eco_score, hprof]

/-- C3 witness: resolving the unknown id `"no-such-model"` against the
scenario catalog fails with that exact identifier, and so do the
footprint and EcoScore computations. -/
theorem C3_model_not_found_witness :
    get_model_profile scenarioCatalog "no-such-model" =
      .error (.modelNotFound "no-such-model") ∧
    calculate_full_footprint scenarioCatalog
      { model_id := "no-such-model", region_id := "eu-north-1",
        total_tokens := 1000000, request_count := 1000 } =
      .error (.modelNotFound "no-such-model") ∧
    calculate_eco_score scenarioCatalog "no-such-model" "eu-north-1"
      none none = .error (.modelNotFound "no-such-model") := by
  obtain ⟨h1, h2, h3⟩ := C3_model_not_found scenarioCatalog "no-such-model"
    (by intro m hmem; simp [scenarioCatalog, scenarioModel] at hmem;
        subst hmem; simp [scenarioModel])
  exact ⟨h1, h2 _ rfl, h3 "eu-north-1" none none⟩

/-- C4: with `total_tokens = 0` and resolvable profiles, every absolute
metric and the duration are `0`, the per-request metrics are `0`, and
the per-request divisor `max(request_count, 1)` is positive, so no
division by zero occurs. -/
theorem C4_zero_tokens (db : Catalog) (inp : FootprintInput)
    (m : AIModel) (gp : GPUProfile) (gr : GridCarbonIntensity)
    (hm : get_model_profile db inp.model_id = .ok m)
    (hgpu : get_gpu_profile db (orElseStr inp.gpu_override m.default_gpu)
      = .ok gp)
    (hgr : get_grid_intensity db inp.region_id = .ok gr)
    (htok : inp.total_tokens = 0) :
    ∃ r, calculate_full_footprint db inp = .ok r ∧
      r.energy_kwh = 0 ∧ r.co2e_grams = 0 ∧ r.water_liters = 0 ∧
      r.hardware_amortized_grams = 0 ∧ r.duration_hours = 0 ∧
      r.energy_per_request = 0 ∧ r.co2e_per_request = 0 ∧
      r.water_per_request = 0 ∧
      (0 : ℝ) < ((max inp.request_count 1 : ℤ) : ℝ) := by
  refine ⟨_, calculate_full_footprint_ok db inp m gp gr hm hgpu hgr,
    ?_, ?_, ?_, ?_, ?_, ?_, ?_, ?_, ?_⟩
  · simp [calculate_energy, htok]
  · simp [calculate_energy, htok]
  · simp [calculate_water, calculate_energy, htok]
  · simp [calculate_hardware_amortization, htok]
  · simp [htok]
  · simp [calculate_energy, htok]
  · simp [calculate_energy, htok]
  · simp [calculate_water, calculate_energy, htok]
  · have : (1 : ℤ) ≤ max inp.request_count 1 := le_max_right _ _
    exact_mod_cast lt_of_lt_of_le Int.zero_lt_one this

/-- C4 witness: the scenario catalog at zero tokens (and
`request_count = 0`, flooring the divisor to `1`) returns all-zero
metrics. -/
theorem C4_zero_tokens_witness :
    ∃ r, calculate_full_footprint scenarioCatalog
      { model_id := "scenario-model", region_id := "eu-north-1",
        total_tokens := 0, request_count := 0 } = .ok r ∧
      r.energy_kwh = 0 ∧ r.co2e_grams = 0 ∧ r.water_liters = 0 ∧
      r.hardware_amortized_grams = 0 ∧ r.duration_hours = 0 ∧
      r.energy_per_request = 0 ∧ r.co2e_per_request = 0 ∧
      r.water_per_request = 0 := by
  obtain ⟨r, hr, h1, h2, h3, h4, h5, h6, h7, h8, _⟩ :=
    C4_zero_tokens scenarioCatalog
      { model_id := "scenario-model", region_id := "eu-north-1",
        total_tokens := 0, request_count := 0 }
      scenarioModel scenarioGpu scenarioGrid rfl rfl rfl rfl
  exact ⟨r, hr, h1, h2, h3, h4, h5, h6, h7, h8⟩

/-- C5 counterexample: with `total_tokens = -1_000_000` the engine does
not fail; it returns a result whose energy and duration are negative
(`energy_kwh = -0.54` in the scenario catalog). -/
theorem C5_counterexample :
    ∃ r, calculate_full_footprint scenarioCatalog
      { model_id := "m-0001", region_id := "eu-north-1",
        total_tokens := -1000000, request_count := 1000 } = .ok r ∧
      r.energy_kwh < 0 ∧ r.duration_hours < 0 := by
  refine ⟨_, calculate_full_footprint_ok scenarioCatalog
    { model_id := "m-0001", region_id := "eu-north-1",
      total_tokens := -1000000, request_count := 1000 }
    scenarioModel scenarioGpu scenarioGrid rfl rfl rfl, ?_, ?_⟩
  · simp only [calculate_energy, orElseR, DEFAULT_PUE]
    norm_num [scenarioModel]
  · norm_num [scenarioModel]

/-- C5 (amended): the engine performs no defensive input validation.
For every input with `total_tokens < 0`, resolvable profiles, a
positive energy coefficient, positive throughput and GPU count, and no
PUE override, `calculate_full_footprint` returns a result (it does not
fail) whose `energy_kwh` and `duration_hours` are both negative. -/
theorem C5_negative_tokens (db : Catalog) (inp : FootprintInput)
    (m : AIModel) (gp : GPUProfile) (gr : GridCarbonIntensity)
    (hm : get_model_profile db inp.model_id = .ok m)
    (hgpu : get_gpu_profile db (orElseStr inp.gpu_override m.default_gpu)
      = .ok gp)
    (hgr : get_grid_intensity db inp.region_id = .ok gr)
    (htok : inp.total_tokens < 0)
    (hpue : inp.pue = none)
    (he : 0 < m.energy_per_million_tokens_kwh)
    (htps : 0 < m.tokens_per_second_per_gpu)
    (hgc : 0 < m.gpu_count_inference) :
    ∃ r, calculate_full_footprint db inp = .ok r ∧
      r.energy_kwh < 0 ∧ r.duration_hours < 0 := by
  refine ⟨_, calculate_full_footprint_ok db inp m gp gr hm hgpu hgr,
    ?_, ?_⟩
  · simp only [calculate_energy, orElseR, hpue, DEFAULT_PUE]
    have htokR : (inp.total_tokens : ℝ) < 0 := by exact_mod_cast htok
    have h1 : (inp.total_tokens : ℝ) / 1000000 < 0 :=
      div_neg_of_neg_of_pos htokR (by norm_num)
    have h2 : (inp.total_tokens : ℝ) / 1000000 *
        m.energy_per_million_tokens_kwh < 0 := mul_neg_of_neg_of_pos h1 he
    exact mul_neg_of_neg_of_pos h2 (by norm_num)
  · have htokR : (inp.total_tokens : ℝ) < 0 := by exact_mod_cast htok
    have h1 : (inp.total_tokens : ℝ) /
        (m.tokens_per_second_per_gpu * m.gpu_count_inference) < 0 :=
      div_neg_of_neg_of_pos htokR (mul_pos htps hgc)
    exact div_neg_of_neg_of_pos h1 (by norm_num)

/-- C5 witness: a second negative-token input (`-2_000_000`) also
returns a result with negative energy and duration. -/
theorem C5_negative_tokens_witness :
    ∃ r, calculate_full_footprint scenarioCatalog
      { model_id := "m-0001", region_id := "eu-north-1",
        total_tokens := -2000000, request_count := 1000 } = .ok r ∧
      r.energy_kwh < 0 ∧ r.duration_hours < 0 := by
  exact C5_negative_tokens scenarioCatalog
    { model_id := "m-0001", region_id := "eu-north-1",
      total_tokens := -2000000, request_count := 1000 }
    scenarioModel scenarioGpu scenarioGrid rfl rfl rfl (by norm_num) rfl
    (by norm_num [scenarioModel]) (by norm_num [scenarioModel])
    (by norm_num [scenarioModel])

/-- C6: for `0 < best < worst`, `log_normalize` maps `best` to `100` and
`worst` to `0`; any `value ≤ best` gives `100`, any `value ≥ worst`
gives `0`, strictly-between values follow the logarithmic interpolation
formula, and the result always lies in `[0, 100]`. -/
theorem C6_log_normalize (best worst value : ℝ) (hb : 0 < best)
    (hbw : best < worst) :
    log_normalize best best worst = 100 ∧
    log_normalize worst best worst = 0 ∧
    (value ≤ best → log_normalize value best worst = 100) ∧
    (worst ≤ value → log_normalize value best worst = 0) ∧
    (best < value → value < worst →
      log_normalize value best worst =
        100 * (1 - (Real.log value - Real.log best) /
          (Real.log worst - Real.log best))) ∧
    0 ≤ log_normalize value best worst ∧
    log_normalize value best worst ≤ 100 := by
  refine ⟨?_, ?_, ?_, ?_, ?_, ?_, ?_⟩
  · simp [log_normalize]
  · rw [log_normalize, if_neg (not_le.mpr hbw), if_pos le_rfl]
  · intro hle
    rw [log_normalize, if_pos hle]
  · intro hge
    have hv : ¬value ≤ best := not_le.mpr (lt_of_lt_of_le hbw hge)
    rw [log_normalize, if_neg hv, if_pos hge]
  · intro h1 h2
    have hv : ¬value ≤ best := not_le.mpr h1
    have hw : ¬worst ≤ value := not_le.mpr h2
    rw [log_normalize, if_neg hv, if_neg hw]
    have hlb : Real.log best < Real.log value := Real.log_lt_log hb h1
    have hlv : Real.log value < Real.log worst :=
      Real.log_lt_log (hb.trans h1) h2
    have hden : 0 < Real.log worst - Real.log best := by linarith
    have hr0 : 0 < (Real.log value - Real.log best) /
        (Real.log worst - Real.log best) := div_pos (by linarith) hden
    have hr1 : (Real.log value - Real.log best) /
        (Real.log worst - Real.log best) < 1 :=
      (div_lt_one hden).mpr (by linarith)
    have hs0 : (0 : ℝ) ≤ 100 * (1 - (Real.log value - Real.log best) /
        (Real.log worst - Real.log best)) := by nlinarith
    have hs100 : 100 * (1 - (Real.log value - Real.log best) /
        (Real.log worst - Real.log best)) ≤ 100 := by nlinarith
    rw [min_eq_right hs100, max_eq_right hs0]
  · rw [log_normalize]
    split_ifs
    · norm_num
    · norm_num
    · exact le_max_left 0 _
  · rw [log_normalize]
    split_ifs
    · norm_num
    · norm_num
    · exact max_le (by norm_num) (min_le_left _ _)

/-- C6 witness: the benchmark pair `best = 2`, `worst = 8` at
`value = 4`. -/
theorem C6_log_normalize_witness :
    (0 : ℝ) < 2 ∧ (2 : ℝ) < 8 ∧
    (log_normalize 2 2 8 = 100 ∧
     log_normalize 8 2 8 = 0 ∧
     ((4 : ℝ) ≤ 2 → log_normalize 4 2 8 = 100) ∧
     ((8 : ℝ) ≤ 4 → log_normalize 4 2 8 = 0) ∧
     ((2 : ℝ) < 4 → (4 : ℝ) < 8 →
       log_normalize 4 2 8 =
         100 * (1 - (Real.log 4 - Real.log 2) /
           (Real.log 8 - Real.log 2))) ∧
     0 ≤ log_normalize 4 2 8 ∧
     log_normalize 4 2 8 ≤ 100) :=
  ⟨by norm_num, by norm_num,
    C6_log_normalize 2 8 4 (by norm_num) (by norm_num)⟩

/-- C7: the letter grade follows the inclusive-lower-bound thresholds
(`≥90` A+, `≥80` A, `≥70` B+, `≥60` B, `≥50` C+, `≥40` C, `≥30` D, else
F), and the boundaries are exact: `90.0` grades as A+ and `89.9` as
A. -/
theorem C7_get_grade (score : ℝ) :
    (90 ≤ score → get_grade score = "A+") ∧
    (80 ≤ score → score < 90 → get_grade score = "A") ∧
    (70 ≤ score → score < 80 → get_grade score = "B+") ∧
    (60 ≤ score → score < 70 → get_grade score = "B") ∧
    (50 ≤ score → score < 60 → get_grade score = "C+") ∧
    (40 ≤ score → score < 50 → get_grade score = "C") ∧
    (30 ≤ score → score < 40 → get_grade score = "D") ∧
    (score < 30 → get_grade score = "F") ∧
    get_grade (90 : ℝ) = "A+" ∧ get_grade (89.9 : ℝ) = "A" := by
  refine ⟨?_, ?_, ?_, ?_, ?_, ?_, ?_, ?_, ?_, ?_⟩
  · intro h1
    rw [get_grade, if_pos h1]
  · intro h1 h2
    rw [get_grade, if_neg (not_le.mpr h2), if_pos h1]
  · intro h1 h2
    rw [get_grade, if_neg (not_le.mpr (h2.trans_le (by norm_num))),
      if_neg (not_le.mpr h2), if_pos h1]
  · intro h1 h2
    rw [get_grade, if_neg (not_le.mpr (h2.trans_le (by norm_num))),
      if_neg (not_le.mpr (h2.trans_le (by norm_num))),
      if_neg (not_le.mpr h2), if_pos h1]
  · intro h1 h2
    rw [get_grade, if_neg (not_le.mpr (h2.trans_le (by norm_num))),
      if_neg (not_le.mpr (h2.trans_le (by norm_num))),
      if_neg (not_le.mpr (h2.trans_le (by norm_num))),
      if_neg (not_le.mpr h2), if_pos h1]
  · intro h1 h2
    rw [get_grade, if_neg (not_le.mpr (h2.trans_le (by norm_num))),
      if_neg (not_le.mpr (h2.trans_le (by norm_num))),
      if_neg (not_le.mpr (h2.trans_le (by norm_num))),
      if_neg (not_le.mpr (h2.trans_le (by norm_num))),
      if_neg (not_le.mpr h2), if_pos h1]
  · intro h1 h2
    rw [get_grade, if_neg (not_le.mpr (h2.trans_le (by norm_num))),
      if_neg (not_le.mpr (h2.trans_le (by norm_num))),
      if_neg (not_le.mpr (h2.trans_le (by norm_num))),
      if_neg (not_le.mpr (h2.trans_le (by norm_num))),
      if_neg (not_le.mpr (h2.trans_le (by norm_num))),
      if_neg (not_le.mpr h2), if_pos h1]
  · intro h1
    rw [get_grade, if_neg (not_le.mpr (h1.trans_le (by norm_num))),
      if_neg (not_le.mpr (h1.trans_le (by norm_num))),
      if_neg (not_le.mpr (h1.trans_le (by norm_num))),
      if_neg (not_le.mpr (h1.trans_le (by norm_num))),
      if_neg (not_le.mpr (h1.trans_le (by norm_num))),
      if_neg (not_le.mpr (h1.trans_le (by norm_num))),
      if_neg (not_le.mpr h1)]
  · norm_num [get_grade]
  · norm_num [get_grade]

/-- C7 witness: `85` satisfies `80 ≤ 85 < 90` and grades as A. -/
theorem C7_get_grade_witness :
    (80 : ℝ) ≤ 85 ∧ (85 : ℝ) < 90 ∧ get_grade 85 = "A" :=
  ⟨by norm_num, by norm_num,
    (C7_get_grade 85).2.1 (by norm_num) (by norm_num)⟩

/-- C8: with the default weights, the overall EcoScore is the weighted
sum `0.30 * energy + 0.30 * carbon + 0.10 * water + 0.10 * hardware +
0.20 * renewable`, and it is non-decreasing when any sub-score
increases while the others are held fixed. -/
theorem C8_overall_monotone (e c w h r e' c' w' h' r' : ℝ)
    (he : e ≤ e') (hc : c ≤ c') (hw : w ≤ w') (hh : h ≤ h')
    (hr : r ≤ r') :
    eco_overall DEFAULT_ECOSCORE_WEIGHTS e c w h r =
      0.30 * e + 0.30 * c + 0.10 * w + 0.10 * h + 0.20 * r ∧
    eco_overall DEFAULT_ECOSCORE_WEIGHTS e c w h r ≤
      eco_overall DEFAULT_ECOSCORE_WEIGHTS e' c' w' h' r' := by
  constructor
  · simp [eco_overall, DEFAULT_ECOSCORE_WEIGHTS]
  · simp only [eco_overall, DEFAULT_ECOSCORE_WEIGHTS]
    linarith

/-- C8 witness: raising the renewable sub-score from `90` to `95` with
the other four sub-scores fixed does not decrease the overall. -/
theorem C8_overall_monotone_witness :
    ((50 : ℝ) ≤ 50 ∧ (60 : ℝ) ≤ 60 ∧ (70 : ℝ) ≤ 70 ∧ (80 : ℝ) ≤ 80 ∧
      (90 : ℝ) ≤ 95) ∧
    eco_overall DEFAULT_ECOSCORE_WEIGHTS 50 60 70 80 90 =
      0.30 * 50 + 0.30 * 60 + 0.10 * 70 + 0.10 * 80 + 0.20 * 90 ∧
    eco_overall DEFAULT_ECOSCORE_WEIGHTS 50 60 70 80 90 ≤
      eco_overall DEFAULT_ECOSCORE_WEIGHTS 50 60 70 80 95 :=
  ⟨⟨le_rfl, le_rfl, le_rfl, le_rfl, by norm_num⟩,
    C8_overall_monotone 50 60 70 80 90 50 60 70 80 95
      le_rfl le_rfl le_rfl le_rfl (by norm_num)⟩

/-- A value at or below the best benchmark normalizes to `100`. -/
theorem log_normalize_le_best (value best worst : ℝ) (h : value ≤ best) :
    log_normalize value best worst = 100 := by
  rw [log_normalize, if_pos h]

/-- Strictly-between values follow the affine interpolation branch of
`linear_normalize`. -/
theorem linear_normalize_strict (value worst best : ℝ)
    (h1 : value < best) (h2 : worst < value) :
    linear_normalize value worst best =
      100 * (value - worst) / (best - worst) := by
  rw [linear_normalize, if_neg (not_le.mpr h1), if_neg (not_le.mpr h2)]

/-- Evaluation of `round1` through the floor characterization. -/
theorem round1_eq_of (x : ℝ) (z : ℤ) (h1 : (z : ℝ) ≤ x * 10 + 1 / 2)
    (h2 : x * 10 + 1 / 2 < z + 1) : round1 x = (z : ℝ) / 10 := by
  have h : (⌊x * 10 + 1 / 2⌋ : ℤ) = z := Int.floor_eq_iff.mpr ⟨h1, h2⟩
  rw [round1, round_eq, h]

/-- The improvement percentage of `compare_models` is `0` when the best
and worst entries coincide (`(1 - x / x) * 100` rounds to `0`). -/
theorem improvement_pct_self (x : ℝ) :
    (if 0 < x then round ((1 - x / x) * 100) else 0) = (0 : ℤ) := by
  by_cases hc : 0 < x
  · rw [if_pos hc, div_self (ne_of_gt hc)]
    norm_num
  · rw [if_neg hc]

/-- Evaluation lemma: when the three catalog lookups succeed,
`calculate_eco_score` returns the record assembled from the source's
sub-score formulas. -/
theorem calculate_eco_score_ok (db : Catalog) (mid rid : String)
    (w : Weights) (g : Option String) (m : AIModel) (gp : GPUProfile)
    (gr : GridCarbonIntensity)
    (hm : get_model_profile db mid = .ok m)
    (hgpu : get_gpu_profile db (orElseStr g m.default_gpu) = .ok gp)
    (hgr : get_grid_intensity db rid = .ok gr) :
    calculate_eco_score db mid rid (some w) g = .ok {
      overall := round1 (eco_overall w
        (log_normalize (m.energy_per_million_tokens_kwh * DEFAULT_PUE)
          ECOSCORE_BENCHMARKS.energyPerMillionTokens.best
          ECOSCORE_BENCHMARKS.energyPerMillionTokens.worst)
        (log_normalize
          (m.energy_per_million_tokens_kwh * DEFAULT_PUE * gr.gco2e_per_kwh)
          ECOSCORE_BENCHMARKS.co2ePerMillionTokens.best
          ECOSCORE_BENCHMARKS.co2ePerMillionTokens.worst)
        (log_normalize
          (m.energy_per_million_tokens_kwh * DEFAULT_PUE *
              DEFAULT_WUE_LITERS_PER_KWH +
            gp.water_cooling_liters_per_hour *
              (1000000 / (m.tokens_per_second_per_gpu *
                m.gpu_count_inference) / 3600))
          ECOSCORE_BENCHMARKS.waterPerMillionTokens.best
          ECOSCORE_BENCHMARKS.waterPerMillionTokens.worst)
        (log_normalize
          (gp.embodied_carbon_kg_co2e * 1000 / gp.expected_lifespan_hours *
            m.gpu_count_inference *
            (1000000 / (m.tokens_per_second_per_gpu *
              m.gpu_count_inference) / 3600))
          ECOSCORE_BENCHMARKS.hardwareAmortizedPerMillionTokens.best
          ECOSCORE_BENCHMARKS.hardwareAmortizedPerMillionTokens.worst)
        (linear_normalize gr.renewable_percentage
          ECOSCORE_BENCHMARKS.renewablePercentage.worst
          ECOSCORE_BENCHMARKS.renewablePercentage.best))
      grade := get_grade (eco_overall w
        (log_normalize (m.energy_per_million_tokens_kwh * DEFAULT_PUE)
          ECOSCORE_BENCHMARKS.energyPerMillionTokens.best
          ECOSCORE_BENCHMARKS.energyPerMillionTokens.worst)
        (log_normalize
          (m.energy_per_million_tokens_kwh * DEFAULT_PUE * gr.gco2e_per_kwh)
          ECOSCORE_BENCHMARKS.co2ePerMillionTokens.best
          ECOSCORE_BENCHMARKS.co2ePerMillionTokens.worst)
        (log_normalize
          (m.energy_per_million_tokens_kwh * DEFAULT_PUE *
              DEFAULT_WUE_LITERS_PER_KWH +
            gp.water_cooling_liters_per_hour *
              (1000000 / (m.tokens_per_second_per_gpu *
                m.gpu_count_inference) / 3600))
          ECOSCORE_BENCHMARKS.waterPerMillionTokens.best
          ECOSCORE_BENCHMARKS.waterPerMillionTokens.worst)
        (log_normalize
          (gp.embodied_carbon_kg_co2e * 1000 / gp.expected_lifespan_hours *
            m.gpu_count_inference *
            (1000000 / (m.tokens_per_second_per_gpu *
              m.gpu_count_inference) / 3600))
          ECOSCORE_BENCHMARKS.hardwareAmortizedPerMillionTokens.best
          ECOSCORE_BENCHMARKS.hardwareAmortizedPerMillionTokens.worst)
        (linear_normalize gr.renewable_percentage
          ECOSCORE_BENCHMARKS.renewablePercentage.worst
          ECOSCORE_BENCHMARKS.renewablePercentage.best))
      breakdown := {
        energyEfficiency := ⟨round1
          (log_normalize (m.energy_per_million_tokens_kwh * DEFAULT_PUE)
            ECOSCORE_BENCHMARKS.energyPerMillionTokens.best
            ECOSCORE_BENCHMARKS.energyPerMillionTokens.worst),
          round3 (m.energy_per_million_tokens_kwh * DEFAULT_PUE),
          "kWh per M tokens"⟩
        carbonIntensity := ⟨round1
          (log_normalize
            (m.energy_per_million_tokens_kwh * DEFAULT_PUE *
              gr.gco2e_per_kwh)
            ECOSCORE_BENCHMARKS.co2ePerMillionTokens.best
            ECOSCORE_BENCHMARKS.co2ePerMillionTokens.worst),
          round2 (m.energy_per_million_tokens_kwh * DEFAULT_PUE *
            gr.gco2e_per_kwh),
          "gCO2e per M tokens"⟩
        waterUsage := ⟨round1
          (log_normalize
            (m.energy_per_million_tokens_kwh * DEFAULT_PUE *
                DEFAULT_WUE_LITERS_PER_KWH +
              gp.water_cooling_liters_per_hour *
                (1000000 / (m.tokens_per_second_per_gpu *
                  m.gpu_count_inference) / 3600))
            ECOSCORE_BENCHMARKS.waterPerMillionTokens.best
            ECOSCORE_BENCHMARKS.waterPerMillionTokens.worst),
          round3 (m.energy_per_million_tokens_kwh * DEFAULT_PUE *
              DEFAULT_WUE_LITERS_PER_KWH +
            gp.water_cooling_liters_per_hour *
              (1000000 / (m.tokens_per_second_per_gpu *
                m.gpu_count_inference) / 3600)),
          "liters per M tokens"⟩
        hardwareLifecycle := ⟨round1
          (log_normalize
            (gp.embodied_carbon_kg_co2e * 1000 /
                gp.expected_lifespan_hours *
              m.gpu_count_inference *
              (1000000 / (m.tokens_per_second_per_gpu *
                m.gpu_count_inference) / 3600))
            ECOSCORE_BENCHMARKS.hardwareAmortizedPerMillionTokens.best
            ECOSCORE_BENCHMARKS.hardwareAmortizedPerMillionTokens.worst),
          round2 (gp.embodied_carbon_kg_co2e * 1000 /
              gp.expected_lifespan_hours *
            m.gpu_count_inference *
            (1000000 / (m.tokens_per_second_per_gpu *
              m.gpu_count_inference) / 3600)),
          "gCO2e amortized per M tokens"⟩
        renewableAlignment := ⟨round1
          (linear_normalize gr.renewable_percentage
            ECOSCORE_BENCHMARKS.renewablePercentage.worst
            ECOSCORE_BENCHMARKS.renewablePercentage.best),
          gr.renewable_percentage,
          "% renewable grid"⟩ }
      confidence := if m.family = "custom" then "low" else "medium" } := by
  simp only [calculate_eco_score, Option.getD, hm, hgpu, hgr]

/-- C9: `compare_models` over a single resolvable model id names that
model in all three rankings and emits no trade-off statements: the two
disagreement statements are impossible and the improvement percentage
is `0`, which is not greater than `10`. -/
theorem C9_single_model_no_tradeoffs (db : Catalog) (mid rid : String)
    (rq avg : ℤ) (weights : Option Weights) (m : AIModel)
    (gp : GPUProfile) (gr : GridCarbonIntensity)
    (hm : get_model_profile db mid = .ok m)
    (hgpu : get_gpu_profile db m.default_gpu = .ok gp)
    (hgr : get_grid_intensity db rid = .ok gr) :
    ∃ res, compare_models db [mid] rid rq avg weights = .ok res ∧
      res.recommendation.bestOverall = mid ∧
      res.recommendation.bestEfficiency = mid ∧
      res.recommendation.bestQualityPerCarbon = mid ∧
      res.recommendation.tradeoffs = [] := by
  have hgpu' : get_gpu_profile db (orElseStr none m.default_gpu) = .ok gp := by
    simpa [orElseStr] using hgpu
  have hfp := calculate_full_footprint_ok db
    { model_id := mid, region_id := rid, total_tokens := rq * avg,
      request_count := rq } m gp gr hm hgpu' hgr
  have heco := calculate_eco_score_ok db mid rid
    (weights.getD DEFAULT_ECOSCORE_WEIGHTS) none m gp gr hm hgpu' hgr
  have hentries : ∃ entry, compare_entries db rid (rq * avg) rq
      (weights.getD DEFAULT_ECOSCORE_WEIGHTS) [mid] = .ok [entry] ∧
      entry.modelId = mid := by
    simp only [compare_entries, hm, heco, hfp]
    exact ⟨_, rfl, rfl⟩
  obtain ⟨entry, hent, hid⟩ := hentries
  have hcm : compare_models db [mid] rid rq avg weights = .ok {
      models := [entry]
      recommendation := {
        bestOverall := entry.modelId
        bestEfficiency := entry.modelId
        bestQualityPerCarbon := entry.modelId
        tradeoffs := [] } } := by
    simp only [compare_models, hent, sortByKey, insertSorted,
      List.getLast_singleton, ne_eq, not_true_eq_false,
      improvement_pct_self]
    norm_num
  exact ⟨_, hcm, hid, hid, hid, rfl⟩

/-- C9 witness: comparing the scenario model alone (default weights,
1000 requests of 1000 tokens) yields a recommendation naming it three
times with an empty trade-off list. -/
theorem C9_single_model_no_tradeoffs_witness :
    ∃ res, compare_models scenarioCatalog ["m-0001"] "eu-north-1"
        1000 1000 none = .ok res ∧
      res.recommendation.bestOverall = "m-0001" ∧
      res.recommendation.bestEfficiency = "m-0001" ∧
      res.recommendation.bestQualityPerCarbon = "m-0001" ∧
      res.recommendation.tradeoffs = [] :=
  C9_single_model_no_tradeoffs scenarioCatalog "m-0001" "eu-north-1"
    1000 1000 none scenarioModel scenarioGpu scenarioGrid rfl rfl rfl

/-- Model row pinning the four logarithmic sub-scores at `100`
(energy coefficient far below every best benchmark). -/
noncomputable def ecoModel : AIModel where
  id := "m-eco"
  slug := "eco-model"
  display_name := "Eco Model"
  family := "eco"
  energy_per_million_tokens_kwh := 0.01
  default_gpu := "gpu-eco"
  gpu_count_inference := 1
  tokens_per_second_per_gpu := 1000000
  quality_score := 90
  is_active := true

/-- GPU row with zero embodied carbon and zero cooling draw, pinning
the water and hardware sub-scores at `100`. -/
noncomputable def ecoGpu : GPUProfile where
  id := "gpu-eco"
  name := "Eco GPU"
  embodied_carbon_kg_co2e := 0
  expected_lifespan_hours := 50000
  water_cooling_liters_per_hour := 0

/-- Grid row with a 50 percent renewable share. -/
noncomputable def ecoGrid : GridCarbonIntensity where
  region_id := "grid-eco"
  location := "Ecotown"
  source := "TestSource"
  gco2e_per_kwh := 100
  renewable_percentage := 50

/-- Catalog for the grade-boundary instance. -/
noncomputable def ecoCatalog : Catalog where
  models := [ecoModel]
  gpus := [ecoGpu]
  grids := [ecoGrid]

/-- Caller-supplied weights producing the unrounded weighted sum
`89.98` with sub-scores `(100, 100, 100, 100, 50)`. -/
noncomputable def boundaryWeights : Weights where
  energyEfficiency := 0.3
  carbonIntensity := 0.3
  waterUsage := 0.1
  hardwareLifecycle := 0.1
  renewableAlignment := 0.1996

/-- C10: `calculate_eco_score` derives the letter grade from the
unrounded weighted sum but reports `overall` rounded to one decimal, so
the two can disagree at grade boundaries: at an unrounded sum of
`89.98` the returned result has `overall = 90.0` with grade `"A"`,
although the grade thresholds map `90.0` to `"A+"`. -/
theorem C10_overall_grade_disagree :
    ∃ r, calculate_eco_score ecoCatalog "m-eco" "grid-eco"
        (some boundaryWeights) none = .ok r ∧
      r.overall = 90 ∧ r.grade = "A" ∧ get_grade r.overall = "A+" := by
  have heval := calculate_eco_score_ok ecoCatalog "m-eco" "grid-eco"
    boundaryWeights none ecoModel ecoGpu ecoGrid rfl rfl rfl
  rw [show log_normalize
      (ecoModel.energy_per_million_tokens_kwh * DEFAULT_PUE)
      ECOSCORE_BENCHMARKS.energyPerMillionTokens.best
      ECOSCORE_BENCHMARKS.energyPerMillionTokens.worst = 100 from
    log_normalize_le_best _ _ _
      (by norm_num [ecoModel, DEFAULT_PUE, ECOSCORE_BENCHMARKS])] at heval
  rw [show log_normalize
      (ecoModel.energy_per_million_tokens_kwh * DEFAULT_PUE *
        ecoGrid.gco2e_per_kwh)
      ECOSCORE_BENCHMARKS.co2ePerMillionTokens.best
      ECOSCORE_BENCHMARKS.co2ePerMillionTokens.worst = 100 from
    log_normalize_le_best _ _ _
      (by norm_num [ecoModel, ecoGrid, DEFAULT_PUE,
        ECOSCORE_BENCHMARKS])] at heval
  rw [show log_normalize
      (ecoModel.energy_per_million_tokens_kwh * DEFAULT_PUE *
          DEFAULT_WUE_LITERS_PER_KWH +
        ecoGpu.water_cooling_liters_per_hour *
          (1000000 / (ecoModel.tokens_per_second_per_gpu *
            ecoModel.gpu_count_inference) / 3600))
      ECOSCORE_BENCHMARKS.waterPerMillionTokens.best
      ECOSCORE_BENCHMARKS.waterPerMillionTokens.worst = 100 from
    log_normalize_le_best _ _ _
      (by norm_num [ecoModel, ecoGpu, DEFAULT_PUE,
        DEFAULT_WUE_LITERS_PER_KWH, ECOSCORE_BENCHMARKS])] at heval
  rw [show log_normalize
      (ecoGpu.embodied_carbon_kg_co2e * 1000 /
          ecoGpu.expected_lifespan_hours *
        ecoModel.gpu_count_inference *
        (1000000 / (ecoModel.tokens_per_second_per_gpu *
          ecoModel.gpu_count_inference) / 3600))
      ECOSCORE_BENCHMARKS.hardwareAmortizedPerMillionTokens.best
      ECOSCORE_BENCHMARKS.hardwareAmortizedPerMillionTokens.worst
      = 100 from
    log_normalize_le_best _ _ _
      (by norm_num [ecoModel, ecoGpu, ECOSCORE_BENCHMARKS])] at heval
  rw [show linear_normalize ecoGrid.renewable_percentage
      ECOSCORE_BENCHMARKS.renewablePercentage.worst
      ECOSCORE_BENCHMARKS.renewablePercentage.best = 50 from by
    rw [linear_normalize_strict _ _ _
      (by norm_num [ecoGrid, ECOSCORE_BENCHMARKS])
      (by norm_num [ecoGrid, ECOSCORE_BENCHMARKS])]
    norm_num [ecoGrid, ECOSCORE_BENCHMARKS]] at heval
  rw [show eco_overall boundaryWeights 100 100 100 100 50 = 89.98 from by
    norm_num [eco_overall, boundaryWeights]] at heval
  rw [show round1 (89.98 : ℝ) = 90 from by
    rw [round1_eq_of _ 900 (by norm_num) (by norm_num)]; norm_num] at heval
  rw [show get_grade (89.98 : ℝ) = "A" from by
    rw [get_grade, if_neg (by norm_num), if_pos (by norm_num)]] at heval
  refine ⟨_, heval, rfl, rfl, ?_⟩
  norm_num [get_grade]

end GreenAI
